import Mathlib

/-!
Verification of the frame broadcast hub and turn engine batch interface of
the `rules` repository, against its natural-language specification.

The Go sources are shallowly embedded:

* pure struct-building functions become Lean functions on records,
* the hub's single dispatch goroutine becomes explicit state passing
  (the per-subscriber send pass is a fold over the undelivered slice of the
  frame buffer, with the concurrently-draining reader abstracted as a
  schedule saying how many frames it removes before each send attempt),
* Go channel semantics are made explicit: a send on a closed channel and a
  close of a closed channel are runtime panics, modelled with `Except`,
* Go slice indexing out of range is a runtime panic, modelled with `Except`.

The repository contains two board-server implementations; the second one
(the `BoardServer` struct with the nil-channel sentinel) is embedded at top
level, the first one (the `boardServer` struct) under namespace `V1`.
-/

/-- Runtime faults of the Go program: every one of these aborts (panics) the
process or goroutine where it happens. -/
inductive GoPanic where
  | sendOnClosedChannel
  | closeOfClosedChannel
  | closeOfNilChannel
  | indexOutOfRange
deriving DecidableEq

/-- Go struct `BoardCoord` from the board-server file: an (x, y) pair serialized with
fields X and Y (Go struct `BoardCoord`). -/
structure BoardCoord where
  x : Int
  y : Int
deriving DecidableEq

/-- Go struct `BoardDeath` from the board-server file: Cause, Turn, EliminatedBy
(Go struct `BoardDeath`; Turn is an int32 whose zero value is 0). -/
structure BoardDeath where
  cause : String
  turn : Int
  eliminatedBy : String
deriving DecidableEq

/-- Go struct `BoardBattlesnake` from the board-server file: one snake of a wire
frame (Go struct `BoardBattlesnake`). -/
structure BoardBattlesnake where
  body : List BoardCoord
  color : String
  id : String
  name : String
  health : Int
  latency : Int
  death : Option BoardDeath
  headType : String
  tailType : String
  author : String
  shout : String
deriving DecidableEq

/-- Go struct `Frame` from the board-server file: one turn's renderable state
(Go struct `Frame`). -/
structure Frame where
  snakes : List BoardBattlesnake
  turn : Int
  food : List BoardCoord
  hazards : List BoardCoord
deriving DecidableEq

/-- The constant `rules.NotEliminated` of the external rules library: the
empty string, the zero value of `EliminatedCause`. -/
def notEliminated : String := ""

/-- Record `rules.Snake` of the external rules library, as consumed by this
repository: identifier, health, body, and the elimination bookkeeping the
ruleset maintains. The field `eliminatedOnTurn` records the turn on which
the snake was eliminated, per the specification's death record
(cause, eliminating agent, turn). -/
structure RulesSnake where
  id : String
  health : Int
  body : List BoardCoord
  eliminatedCause : String
  eliminatedBy : String
  eliminatedOnTurn : Int
deriving DecidableEq

/-- Record `rules.BoardState` of the external rules library, as consumed by this
repository: board dimensions, turn number, food, hazards and snakes. -/
structure BoardState where
  turn : Int
  width : Int
  height : Int
  food : List BoardCoord
  hazards : List BoardCoord
  snakes : List RulesSnake
deriving DecidableEq

/-- Record `SnakeState` as read by `frameFromState`: the cosmetic registry entry
for one snake (color, name, head and tail style). Reading a Go map at a
missing key yields the zero value, so the registry is modelled as a total
function from snake ID to `SnakeState`. -/
structure SnakeState where
  color : String
  name : String
  head : String
  tail : String
deriving DecidableEq

/-- Function `frameFromState` (board-server file): builds the wire `Frame` from a
`rules.BoardState` and the cosmetic registry. A snake whose
`EliminatedCause` is `rules.NotEliminated` and whose `EliminatedBy` is
empty gets a nil death record; otherwise the death record is populated
with only `EliminatedBy` and `Cause` (the struct literal leaves `Turn` at
its zero value 0). `Health` is copied through unchanged. -/
def frameFromState (state : BoardState) (snakeStates : String → SnakeState) : Frame :=
  { snakes := state.snakes.map (fun snake =>
      { body := snake.body
        color := (snakeStates snake.id).color
        id := snake.id
        name := (snakeStates snake.id).name
        health := snake.health
        latency := 0
        death :=
          if snake.eliminatedCause = notEliminated ∧ snake.eliminatedBy = "" then
            none
          else
            some { cause := snake.eliminatedCause
                   turn := 0
                   eliminatedBy := snake.eliminatedBy }
        headType := (snakeStates snake.id).head
        tailType := (snakeStates snake.id).tail
        author := ""
        shout := "" })
    turn := state.turn
    food := state.food
    hazards := state.hazards }

/-- Producer-side view of the hub: the frame history buffer owned by the
dispatch goroutine, whether `gameOver` has closed `frameChannel`, and
whether the dispatch loop has already observed that close and executed
`b.frameChannel = nil` (the nil-channel sentinel). -/
structure ProducerState where
  buffer : List Frame
  frameChannelClosed : Bool
  frameChannelNil : Bool
deriving DecidableEq

/-- Outcome of the producer's `b.frameChannel <- frame`: received and
appended, a runtime panic, or blocked forever — a send on a nil channel
never proceeds. -/
inductive SendOutcome where
  | ok (s : ProducerState)
  | panic (p : GoPanic)
  | blocked
deriving DecidableEq

/-- Function `sendState` (board-server file) combined with the dispatch
loop's ingestion case. While `b.frameChannel` still holds the open
channel, the send is received by the loop's select, which appends the
frame to `boardFrameBuffer` unconditionally — no field of the frame, in
particular not its turn number, is inspected. After `gameOver` has
closed the channel there are two interleavings: a send that races ahead
of the dispatch loop hits the closed channel — a Go runtime panic;
a send after the loop has executed `b.frameChannel = nil` is a send on a
nil channel and blocks forever. -/
def sendState (s : ProducerState) (frame : Frame) : SendOutcome :=
  if s.frameChannelNil then
    SendOutcome.blocked
  else if s.frameChannelClosed then
    SendOutcome.panic GoPanic.sendOnClosedChannel
  else
    SendOutcome.ok { s with buffer := s.buffer ++ [frame] }

/-- Function `gameOver` (board-server file): `close(b.frameChannel)`.
Closing an already-closed channel, or the nil the dispatch loop put in
its place, is a Go runtime panic either way. -/
def gameOver (s : ProducerState) : Except GoPanic ProducerState :=
  if s.frameChannelNil then
    Except.error GoPanic.closeOfNilChannel
  else if s.frameChannelClosed then
    Except.error GoPanic.closeOfClosedChannel
  else
    Except.ok { s with frameChannelClosed := true }

/-- Reaction of the dispatch loop to the closed producer channel: the
select's receive reports not-open and the loop executes
`b.frameChannel = nil`; on a still-open channel the case does not fire
this way. -/
def observeClose (s : ProducerState) : ProducerState :=
  if s.frameChannelClosed then { s with frameChannelNil := true } else s

/-- The capacity of each subscriber's frame channel:
`make(chan Frame, 100)` in the websocket registration handler. -/
def frameChannelCapacity : Nat := 100

/-- The dispatch loop's view of one subscriber: `cursor` is
`reqMap[req]` (index of the next frame to send), `pushed` is the sequence
of frames ever sent into the subscriber's channel in send order, `taken`
is how many of those the subscriber goroutine has already received, and
`chanClosed` records whether the hub has closed the subscriber's channel. -/
structure SubState where
  cursor : Nat
  pushed : List Frame
  taken : Nat
  chanClosed : Bool
deriving DecidableEq

/-- A freshly registered subscriber: `reqMap[websocketChannels] = 0` with a
fresh empty channel. -/
def newSub : SubState := { cursor := 0, pushed := [], taken := 0, chanClosed := false }

/-- Number of frames currently sitting in the subscriber's channel. -/
def SubState.queueLen (s : SubState) : Nat := s.pushed.length - s.taken

/-- The body of `for i, frame := range boardFrameBuffer[frameCount:]` for
one subscriber. `frames` is the undelivered slice, `i` the relative index,
`frameCount` the cursor at the start of the pass. `drain i` is how many
frames the subscriber's goroutine concurrently removes from the channel
just before send attempt `i`. Each attempt is the non-blocking
`select { case req.frameChannel <- frame: reqMap[req] = frameCount + i + 1
default: }`: it succeeds exactly when the bounded channel has room, and on
the default (full channel) the loop continues with the next frame — it
does not break. -/
def sendPassAux (cap : Nat) (drain : Nat → Nat) (frameCount : Nat) :
    List Frame → Nat → SubState → SubState
  | [], _, s => s
  | frame :: rest, i, s =>
      let s1 : SubState := { s with taken := min s.pushed.length (s.taken + drain i) }
      if s1.queueLen < cap then
        sendPassAux cap drain frameCount rest (i + 1)
          { cursor := frameCount + i + 1
            pushed := s1.pushed ++ [frame]
            taken := s1.taken
            chanClosed := s1.chanClosed }
      else
        sendPassAux cap drain frameCount rest (i + 1) s1

/-- One full send pass for one subscriber, starting from its current
cursor over the whole buffer. -/
def sendPass (cap : Nat) (drain : Nat → Nat) (buffer : List Frame) (s : SubState) : SubState :=
  sendPassAux cap drain s.cursor (buffer.drop s.cursor) 0 s

/-- One iteration of the dispatch loop's per-subscriber body
(`for req, frameCount := range reqMap`): if the subscriber's done channel
has fired it is removed from the registry (`none`); otherwise the send
pass runs, and then, when the producer channel has been nilled out
(`b.frameChannel == nil`, i.e. the game is over) and the cursor has
reached the end of the buffer, the subscriber's channel is closed. -/
def dispatchTickSub (producerClosed : Bool) (buffer : List Frame) (cap : Nat)
    (drain : Nat → Nat) (subDone : Bool) (sub : SubState) : Option SubState :=
  if subDone then
    none
  else
    let s := sendPass cap drain buffer sub
    if producerClosed ∧ buffer.length ≤ s.cursor then
      some { s with chanClosed := true }
    else
      some s

/-- Events a subscriber's `serveFrames` connection loop can observe: a
frame received from its channel (the channel still open), the channel
reported closed (after its queued frames are drained, per Go channel
semantics), or the inbound-discard goroutine signalling peer disconnect
on `closedChannel`. -/
inductive WsEvent where
  | frame (f : Frame)
  | chanClosed
  | disconnect
deriving DecidableEq

/-- What `serveFrames` writes to the websocket: a frame envelope
`WsMessage{&frame, "frame"}`, the terminal envelope
`WsMessage{lastFrame, "game_end"}` (whose payload may be nil when no
frame was ever received), or the websocket close message. -/
inductive Envelope where
  | frameMsg (f : Frame)
  | gameEndMsg (f : Option Frame)
  | closeMsg
deriving DecidableEq

/-- The `conn_loop` of `serveFrames` (board-server file), as the list of
messages written for a given event sequence. `last` is the local
`lastFrame` pointer. On an open-channel frame: remember it as `lastFrame`
and write a "frame" envelope. On channel close: write the "game_end"
envelope carrying `lastFrame`, then the websocket close message, and
leave the loop. On peer disconnect: leave the loop writing nothing.
Writes are modelled as succeeding (a write failure would abort only this
subscriber). -/
def serveFramesWrites : List WsEvent → Option Frame → List Envelope
  | [], _ => []
  | WsEvent.frame f :: rest, _ => Envelope.frameMsg f :: serveFramesWrites rest (some f)
  | WsEvent.chanClosed :: _, last => [Envelope.gameEndMsg last, Envelope.closeMsg]
  | WsEvent.disconnect :: _, _ => []

/-- Number of "game_end" envelopes in a write sequence. -/
def countGameEnd : List Envelope → Nat
  | [] => 0
  | Envelope.gameEndMsg _ :: rest => countGameEnd rest + 1
  | _ :: rest => countGameEnd rest

/-- Where the dispatch goroutine (the `serve_loop`) stands with respect to
the unbuffered `doneChannel`: blocked in its select (hence able to receive
the stop signal), about to send its completion signal after `break
serve_loop`, or exited. -/
inductive DispatchStatus where
  | selecting
  | sendingDone
  | exited
deriving DecidableEq

/-- Where the listener goroutine stands: inside `ListenAndServe`, about to
send its completion signal after `ListenAndServe` returned, or exited. -/
inductive ListenerStatus where
  | serving
  | sendingDone
  | exited
deriving DecidableEq

/-- The two background goroutines `stop` must join. -/
structure ServerProcs where
  dispatch : DispatchStatus
  listener : ListenerStatus
deriving DecidableEq

/-- The server right after `startBoardServer`: the dispatch loop is in its
select and the listener is serving. -/
def startedServer : ServerProcs :=
  { dispatch := DispatchStatus.selecting, listener := ListenerStatus.serving }

/-- One `<-b.doneChannel` receive inside `stop`: it completes exactly when
some goroutine is at its completion send (`b.doneChannel <- struct{}{}`),
and that goroutine then exits; with no sender the receive blocks forever
(`none`). -/
def recvDone (s : ServerProcs) : Option ServerProcs :=
  match s.dispatch with
  | DispatchStatus.sendingDone => some { s with dispatch := DispatchStatus.exited }
  | _ =>
      match s.listener with
      | ListenerStatus.sendingDone => some { s with listener := ListenerStatus.exited }
      | _ => none

/-- Method `stop` (board-server file, `BoardServer`): first `b.doneChannel <-
struct{}{}` — the only receiver on `doneChannel` is the dispatch loop's
select, so the send completes exactly when the loop is still selecting
(it then breaks out of `serve_loop` and proceeds to its completion send);
with no receiver the send blocks forever (`none`). Then
`b.Server.Shutdown` makes `ListenAndServe` return, so a serving listener
proceeds to its completion send. Then two `<-b.doneChannel` receives. -/
def stop (s : ServerProcs) : Option ServerProcs :=
  match (if s.dispatch = DispatchStatus.selecting then
           some { s with dispatch := DispatchStatus.sendingDone }
         else none : Option ServerProcs) with
  | none => none
  | some s1 =>
      let s2 : ServerProcs :=
        if s1.listener = ListenerStatus.serving then
          { s1 with listener := ListenerStatus.sendingDone }
        else s1
      match recvDone s2 with
      | none => none
      | some s3 => recvDone s3

namespace V1

/-- Snake record of the first board-server implementation. Its snakes
carry the same wire fields (plus `Squad`); for the metadata-query claim
only the record as a whole matters, so the snake list reuses the frame
snake record with the squad alongside. -/
structure WebsiteBattlesnake where
  body : List BoardCoord
  color : String
  id : String
  name : String
  health : Int
  latency : Int
  death : Option BoardDeath
  headType : String
  tailType : String
  squad : String
  author : String
  shout : String
deriving DecidableEq

/-- Go struct `BoardFrame` (first implementation): Snakes, Turn, Food, Hazards. -/
structure BoardFrame where
  snakes : List WebsiteBattlesnake
  turn : Int
  food : List BoardCoord
  hazards : List BoardCoord
deriving DecidableEq

/-- The first implementation's handler for `/games/` asks the dispatch
goroutine for the last frame, and the goroutine answers with
`boardFrameBuffer[len(boardFrameBuffer)-1]`. On an empty buffer the index
is `-1`, a Go runtime panic (index out of range); otherwise the last
buffered frame is returned. -/
def lastFrameForGameQuery (boardFrameBuffer : List BoardFrame) : Except GoPanic BoardFrame :=
  match boardFrameBuffer.getLast? with
  | none => Except.error GoPanic.indexOutOfRange
  | some f => Except.ok f

end V1

/-- Record `client.Customizations` of the external client library: the cosmetic
bundle carried verbatim from the stored snake state. -/
structure Customizations where
  color : String
  head : String
  tail : String
deriving DecidableEq

/-- Record `client.Snake` of the external client library, with the fields
`move.go` reads and writes: ID, Name, Health, Body, Latency, Head,
Length, Shout, Customizations. The API carries no death record. -/
structure ClientSnake where
  id : String
  name : String
  health : Int
  body : List BoardCoord
  latency : String
  head : BoardCoord
  length : Int
  shout : String
  customizations : Customizations
deriving DecidableEq

/-- The Go zero value of `client.Snake`, what a map read at a missing key
yields. -/
def zeroClientSnake : ClientSnake :=
  { id := "", name := "", health := 0, body := [], latency := ""
    head := { x := 0, y := 0 }, length := 0, shout := ""
    customizations := { color := "", head := "", tail := "" } }

/-- Record `client.Board` of the external client library as built by `move.go`. -/
structure ClientBoard where
  height : Int
  width : Int
  food : List BoardCoord
  hazards : List BoardCoord
  snakes : List ClientSnake
deriving DecidableEq

/-- The parts of `client.Game` that `move.go` consumes directly: the map
identifier handed to `maps.UpdateBoard` and the ruleset name; the ruleset
settings feed only the external ruleset builder, which is a parameter of
the pipeline here. The whole record is passed through to the output
request unchanged. -/
structure GameInfo where
  mapId : String
  rulesetName : String
deriving DecidableEq

/-- Record `client.SnakeRequest`: one full game-request snapshot. -/
structure SnakeRequest where
  game : GameInfo
  turn : Int
  board : ClientBoard
  you : ClientSnake
deriving DecidableEq

/-- Go struct `MoveState` (move.go): one decoded input line, a request plus a list
of move directions. -/
structure MoveState where
  request : SnakeRequest
  moves : List String
deriving DecidableEq

/-- Record `rules.SnakeMove` of the external rules library: a (snake ID, move)
pair. -/
structure SnakeMove where
  id : String
  move : String
deriving DecidableEq

/-- A failure of one `move` loop iteration: a Go runtime panic, or one of
the `errLog.Fatalf` exits on a collaborator error. -/
inductive MoveFailure where
  | panic (p : GoPanic)
  | fatal (msg : String)
deriving DecidableEq

/-- The move-pairing loop of `move` (move.go):
`for i, move := range state.Moves { moves = append(moves,
rules.SnakeMove{ID: state.Request.Board.Snakes[i].ID, Move: move}) }`.
The snake providing the ID is indexed by the position of the move, so a
moves list longer than the snake list indexes past the end — a Go
runtime panic. -/
def pairMovesAux (snakes : List ClientSnake) :
    List String → Nat → Except GoPanic (List SnakeMove)
  | [], _ => Except.ok []
  | m :: rest, i =>
      match snakes[i]? with
      | some s =>
          match pairMovesAux snakes rest (i + 1) with
          | Except.ok tail => Except.ok ({ id := s.id, move := m } :: tail)
          | Except.error e => Except.error e
      | none => Except.error GoPanic.indexOutOfRange

/-- The move-pairing loop, started at index 0. -/
def pairMoves (snakes : List ClientSnake) (moves : List String) :
    Except GoPanic (List SnakeMove) :=
  pairMovesAux snakes moves 0

/-- The `snakeMap[s.ID] = s` loop of `move`: a map from snake ID to the
input snake record, later entries overwriting earlier ones, missing keys
yielding the zero value. -/
def buildSnakeMap (snakes : List ClientSnake) : String → ClientSnake :=
  snakes.foldl (fun acc s => fun k => if k = s.id then s else acc k)
    (fun _ => zeroClientSnake)

/-- The `if s.ID == youID { youIdx = i }` loop of `move`: the index of the
last snake whose ID equals the You ID, defaulting to 0. -/
def findYouIdx (snakes : List ClientSnake) (youID : String) : Nat :=
  snakes.enum.foldl (fun acc p => if p.2.id = youID then p.1 else acc) 0

/-- The board state `move` hands to the ruleset: `rules.NewBoardState`
then snakes appended with only ID, Health and Body (elimination fields at
their zero values), then Turn, Food and Hazards copied from the request. -/
def initialBoardState (req : SnakeRequest) : BoardState :=
  { turn := req.turn
    width := req.board.width
    height := req.board.height
    food := req.board.food
    hazards := req.board.hazards
    snakes := req.board.snakes.map (fun s =>
      { id := s.id, health := s.health, body := s.body
        eliminatedCause := notEliminated, eliminatedBy := ""
        eliminatedOnTurn := 0 }) }

/-- Function `convertRulesAPISnake` (move.go): back-converts a ruleset snake to the
client API shape. Health is forced to 0 for an eliminated snake
(`EliminatedCause != rules.NotEliminated`), the body is kept, `Head` is
`body[0]` — a Go runtime panic on an empty body — and the cosmetic
fields come from the stored snake state. The client shape has no death
field, so nothing of the elimination cause or turn survives here. -/
def convertRulesAPISnake (snake : RulesSnake) (snakeState : ClientSnake) :
    Except GoPanic ClientSnake :=
  let health : Int := if snake.eliminatedCause ≠ notEliminated then 0 else snake.health
  match snake.body with
  | [] => Except.error GoPanic.indexOutOfRange
  | h :: _ =>
      Except.ok
        { id := snake.id
          name := snakeState.name
          health := health
          body := snake.body
          latency := snakeState.latency
          head := h
          length := Int.ofNat snake.body.length
          shout := snakeState.shout
          customizations := snakeState.customizations }

/-- Function `convertRulesAPISnakes` (move.go): converts every ruleset snake, in
order, dropping none. -/
def convertRulesAPISnakes (snakes : List RulesSnake) (snakeStates : String → ClientSnake) :
    Except GoPanic (List ClientSnake) :=
  match snakes with
  | [] => Except.ok []
  | s :: rest =>
      match convertRulesAPISnake s (snakeStates s.id) with
      | Except.error e => Except.error e
      | Except.ok c =>
          match convertRulesAPISnakes rest snakeStates with
          | Except.error e => Except.error e
          | Except.ok cs => Except.ok (c :: cs)

/-- One iteration of the `move` read loop (move.go) on a successfully
decoded line. The external collaborators — the ruleset's
`CreateNextBoardState` and `IsGameOver` and the map's `UpdateBoard` — are
parameters; per the specification they are opaque capabilities delegated
the movement, elimination and hazard work. Collaborator errors are the
`errLog.Fatalf` exits. On success the emitted snapshot carries the game
record unchanged, `Turn: boardState.Turn + 1`, the rebuilt board, and
`You` recomputed from the post-turn snake at the viewpoint index. -/
def moveLine
    (createNextBoardState : BoardState → List SnakeMove → Except String BoardState)
    (updateBoard : String → BoardState → Except String BoardState)
    (isGameOver : BoardState → Except String Bool)
    (input : MoveState) : Except MoveFailure SnakeRequest :=
  let snakes := input.request.board.snakes
  let youID := input.request.you.id
  let youIdx := findYouIdx snakes youID
  let snakeMap := buildSnakeMap snakes
  match pairMoves snakes input.moves with
  | Except.error p => Except.error (MoveFailure.panic p)
  | Except.ok moves =>
      match createNextBoardState (initialBoardState input.request) moves with
      | Except.error e => Except.error (MoveFailure.fatal e)
      | Except.ok s1 =>
          match updateBoard input.request.game.mapId s1 with
          | Except.error e => Except.error (MoveFailure.fatal e)
          | Except.ok s2 =>
              match isGameOver s2 with
              | Except.error e => Except.error (MoveFailure.fatal e)
              | Except.ok _ =>
                  match convertRulesAPISnakes s2.snakes snakeMap with
                  | Except.error p => Except.error (MoveFailure.panic p)
                  | Except.ok newSnakes =>
                      match s2.snakes[youIdx]? with
                      | none => Except.error (MoveFailure.panic GoPanic.indexOutOfRange)
                      | some youSnake =>
                          match convertRulesAPISnake youSnake (snakeMap youID) with
                          | Except.error p => Except.error (MoveFailure.panic p)
                          | Except.ok you =>
                              Except.ok
                                { game := input.request.game
                                  turn := s2.turn + 1
                                  board := { height := s2.height
                                             width := s2.width
                                             food := s2.food
                                             hazards := s2.hazards
                                             snakes := newSnakes }
                                  you := you }

/-- A JSON value, for the wire shape of the metadata endpoint. Objects
keep field order, as Go's encoding/json emits struct fields in
declaration order. -/
inductive Json where
  | str (s : String)
  | num (n : Int)
  | obj (fields : List (String × Json))

/-- The keys of a JSON object, in emission order. -/
def Json.topKeys : Json → List String
  | Json.obj fields => fields.map Prod.fst
  | _ => []

/-- The field of an object at a key. -/
def Json.field (j : Json) (key : String) : Option Json :=
  match j with
  | Json.obj fields => (fields.find? (fun p => p.fst = key)).map Prod.snd
  | _ => none

/-- The parts of `GameState` that `serveGameId` (second implementation)
reads: `state.gameID`, `state.Width`, `state.Height`,
`state.ruleset.Name()`. -/
structure GameState where
  gameID : String
  width : Int
  height : Int
  rulesetName : String
deriving DecidableEq

/-- Modelled from the spec: `client.Ruleset` lives in the external client
library, outside this repository; the specification gives its serialized
shape as an object carrying the ruleset Name. -/
def marshalClientRuleset (name : String) : Json :=
  Json.obj [("Name", Json.str name)]

/-- Marshalling of `BoardGame` (second implementation): Go emits the
struct fields in declaration order with their tag names — the ID field is
tagged lowercase `id`, the others `Width`, `Height`, `Ruleset`. -/
def marshalBoardGame (state : GameState) : Json :=
  Json.obj [("id", Json.str state.gameID),
            ("Width", Json.num state.width),
            ("Height", Json.num state.height),
            ("Ruleset", marshalClientRuleset state.rulesetName)]

/-- Marshalling of `BoardResponse`: a single `Game` field. -/
def marshalBoardResponse (state : GameState) : Json :=
  Json.obj [("Game", marshalBoardGame state)]

/-- What `serveGameId` writes back. -/
inductive HttpResponse where
  | jsonOk (body : Json)
  | methodNotAllowed

/-- Handler `serveGameId` (second implementation): any method other than GET gets
`http.Error(..., http.StatusMethodNotAllowed)`; a GET gets the marshalled
`BoardResponse`. -/
def serveGameId (method : String) (state : GameState) : HttpResponse :=
  if method ≠ "GET" then HttpResponse.methodNotAllowed
  else HttpResponse.jsonOk (marshalBoardResponse state)

/-- A frame with a given turn number and nothing else, for concrete
instances. -/
def mkFrame (n : Int) : Frame := { snakes := [], turn := n, food := [], hazards := [] }

/-- The buffer holding the first `n` ingested frames, turn numbers 0 to
n-1. -/
def rangeFrames (n : Nat) : List Frame :=
  (List.range n).map (fun k => mkFrame (Int.ofNat k))

/-- The empty cosmetic registry (every ID maps to the zero value). -/
def zeroSnakeState : SnakeState := { color := "", name := "", head := "", tail := "" }

/-- C10: the first implementation's metadata query answers with
`boardFrameBuffer[len(boardFrameBuffer)-1]`; on any non-empty buffer this
is the last buffered frame, and on the empty buffer (no frame ingested
yet) it is an index-out-of-range panic, so the query is safe only under
the precondition that at least one frame has been ingested. -/
theorem c10_games_query_unsafe_on_empty_buffer
    (buf : List V1.BoardFrame) (h : buf ≠ []) :
    V1.lastFrameForGameQuery [] = Except.error GoPanic.indexOutOfRange
    ∧ ∃ f, V1.lastFrameForGameQuery buf = Except.ok f := by
  refine ⟨rfl, ?_⟩
  have h2 : buf.getLast?.isSome := by
    rw [List.getLast?_isSome]
    exact h
  obtain ⟨f, hf⟩ := Option.isSome_iff_exists.mp h2
  exact ⟨f, by simp [V1.lastFrameForGameQuery, hf]⟩

/-- Witness for C10 at a one-frame buffer. -/
theorem c10_witness :
    V1.lastFrameForGameQuery [] = Except.error GoPanic.indexOutOfRange
    ∧ ∃ f, V1.lastFrameForGameQuery
        [{ snakes := [], turn := 0, food := [], hazards := [] }] = Except.ok f :=
  c10_games_query_unsafe_on_empty_buffer
    [{ snakes := [], turn := 0, food := [], hazards := [] }] (List.cons_ne_nil _ _)

/-- C8 counterexample: on a GET, the Game object is keyed `id`, `Width`,
`Height`, `Ruleset` — the identifier field name is lowercase `id` (its Go
json tag), not `ID` as the claim states. -/
theorem c8_counterexample :
    serveGameId ("GET") { gameID := "g1", width := 11, height := 12, rulesetName := "standard" }
      = HttpResponse.jsonOk (Json.obj [("Game", Json.obj
          [("id", Json.str ("g1")), ("Width", Json.num 11), ("Height", Json.num 12),
           ("Ruleset", Json.obj [("Name", Json.str ("standard"))])])])
    ∧ (marshalBoardGame
        { gameID := "g1", width := 11, height := 12, rulesetName := "standard" }).topKeys
        = ["id", "Width", "Height", "Ruleset"]
    ∧ "ID" ∉ (marshalBoardGame
        { gameID := "g1", width := 11, height := 12, rulesetName := "standard" }).topKeys := by
  refine ⟨rfl, rfl, ?_⟩
  decide

/-- C8 as amended: a GET on the game path returns JSON of exactly the
shape with fields Game, then id (lowercase), Width, Height and
Ruleset.Name, carrying the session's values; any other method gets a
method-not-allowed error. -/
theorem c8_amended (state : GameState) (method : String) (h : method ≠ "GET") :
    serveGameId ("GET") state = HttpResponse.jsonOk (Json.obj [("Game", Json.obj
        [("id", Json.str state.gameID), ("Width", Json.num state.width),
         ("Height", Json.num state.height),
         ("Ruleset", Json.obj [("Name", Json.str state.rulesetName)])])])
    ∧ serveGameId method state = HttpResponse.methodNotAllowed := by
  constructor
  · simp [serveGameId, marshalBoardResponse, marshalBoardGame, marshalClientRuleset]
  · simp [serveGameId, h]

/-- Witness for C8 at a concrete session and the POST method. -/
theorem c8_witness :
    serveGameId ("GET") { gameID := "g1", width := 7, height := 7, rulesetName := "royale" }
      = HttpResponse.jsonOk (Json.obj [("Game", Json.obj
          [("id", Json.str ("g1")), ("Width", Json.num 7), ("Height", Json.num 7),
           ("Ruleset", Json.obj [("Name", Json.str ("royale"))])])])
    ∧ serveGameId ("POST") { gameID := "g1", width := 7, height := 7, rulesetName := "royale" }
        = HttpResponse.methodNotAllowed :=
  c8_amended { gameID := "g1", width := 7, height := 7, rulesetName := "royale" } "POST"
    (by decide)

/-- C9 counterexample: from the freshly started server the first `stop`
completes (both goroutines joined), but running `stop` again from the
resulting state yields `none` — the second call's initial send on the
unbuffered done channel has no receiver left, so it blocks forever
instead of being a safe no-op. -/
theorem c9_counterexample :
    (stop startedServer).bind stop = none ∧ stop startedServer ≠ none := by
  decide

/-- C9 as amended: `stop()` completes only by observing both completion
signals — whenever it returns, the dispatch loop and the listener have
both delivered their done signals and exited — and from the started
server it does complete; but it must be called at most once: after a
completed `stop` a second call never returns. -/
theorem c9_amended (s s2 : ServerProcs) (h : stop s = some s2) :
    stop startedServer
      = some { dispatch := DispatchStatus.exited, listener := ListenerStatus.exited }
    ∧ s2 = { dispatch := DispatchStatus.exited, listener := ListenerStatus.exited }
    ∧ stop s2 = none := by
  obtain ⟨d, l⟩ := s
  cases d <;> cases l <;> simp_all [stop, recvDone, startedServer] <;>
    simp [← h, stop, recvDone]

/-- Witness for C9 at the started server. -/
theorem c9_witness :
    stop startedServer
      = some { dispatch := DispatchStatus.exited, listener := ListenerStatus.exited }
    ∧ ({ dispatch := DispatchStatus.exited, listener := ListenerStatus.exited } : ServerProcs)
      = { dispatch := DispatchStatus.exited, listener := ListenerStatus.exited }
    ∧ stop { dispatch := DispatchStatus.exited, listener := ListenerStatus.exited } = none :=
  c9_amended startedServer
    { dispatch := DispatchStatus.exited, listener := ListenerStatus.exited } (by decide)

/-- C2 counterexample: a frame whose turn number is 7 is ingested into an
empty buffer (length 0) and appended without any check or error — the
turn-number mismatch is silently absorbed, not surfaced. -/
theorem c2_counterexample :
    sendState { buffer := [], frameChannelClosed := false, frameChannelNil := false }
        (mkFrame 7)
      = SendOutcome.ok { buffer := [mkFrame 7], frameChannelClosed := false
                         frameChannelNil := false }
    ∧ (mkFrame 7).turn ≠ (0 : Int) :=
  ⟨rfl, by decide⟩

/-- C2 as amended: `ingest` appends the frame unconditionally — no field
of the frame, in particular not its turn number, is checked against the
buffer length, so a turn-number mismatch is absorbed silently. An ingest
after end-of-game never appends a frame, but how it fails depends on the
race with the dispatch loop: a send that arrives before the loop consumes
the close panics on the closed channel, while a send after the loop has
replaced the channel with nil blocks the producer forever — surfaced as
a panic only in the first interleaving. A double end-of-game panics in
both interleavings. -/
theorem c2_amended (s : ProducerState) (f : Frame)
    (hopen : s.frameChannelClosed = false) (hnil : s.frameChannelNil = false) :
    sendState s f = SendOutcome.ok
        { buffer := s.buffer ++ [f], frameChannelClosed := false, frameChannelNil := false }
    ∧ gameOver s = Except.ok
        { buffer := s.buffer, frameChannelClosed := true, frameChannelNil := false }
    ∧ (∀ s2 : ProducerState, s2.frameChannelClosed = true →
        (∀ (f2 : Frame) (s3 : ProducerState), sendState s2 f2 ≠ SendOutcome.ok s3)
        ∧ (s2.frameChannelNil = false →
            sendState s2 f = SendOutcome.panic GoPanic.sendOnClosedChannel
            ∧ gameOver s2 = Except.error GoPanic.closeOfClosedChannel
            ∧ (observeClose s2).frameChannelNil = true)
        ∧ (s2.frameChannelNil = true →
            sendState s2 f = SendOutcome.blocked
            ∧ gameOver s2 = Except.error GoPanic.closeOfNilChannel)) := by
  obtain ⟨buf, fc, fn⟩ := s
  simp only at hopen hnil
  subst hopen
  subst hnil
  refine ⟨rfl, rfl, ?_⟩
  intro s2 hc
  obtain ⟨buf2, fc2, fn2⟩ := s2
  simp only at hc
  subst hc
  refine ⟨?_, ?_, ?_⟩
  · intro f2 s3
    cases fn2 <;> simp [sendState]
  · intro hfn
    simp only at hfn
    subst hfn
    exact ⟨rfl, rfl, rfl⟩
  · intro hfn
    simp only at hfn
    subst hfn
    exact ⟨rfl, rfl⟩

/-- Witness for C2 at the empty open hub and a turn-0 frame. -/
theorem c2_witness :
    sendState { buffer := [], frameChannelClosed := false, frameChannelNil := false }
        (mkFrame 0)
      = SendOutcome.ok { buffer := [] ++ [mkFrame 0], frameChannelClosed := false
                         frameChannelNil := false }
    ∧ gameOver { buffer := [], frameChannelClosed := false, frameChannelNil := false }
      = Except.ok { buffer := [], frameChannelClosed := true, frameChannelNil := false }
    ∧ (∀ s2 : ProducerState, s2.frameChannelClosed = true →
        (∀ (f2 : Frame) (s3 : ProducerState), sendState s2 f2 ≠ SendOutcome.ok s3)
        ∧ (s2.frameChannelNil = false →
            sendState s2 (mkFrame 0) = SendOutcome.panic GoPanic.sendOnClosedChannel
            ∧ gameOver s2 = Except.error GoPanic.closeOfClosedChannel
            ∧ (observeClose s2).frameChannelNil = true)
        ∧ (s2.frameChannelNil = true →
            sendState s2 (mkFrame 0) = SendOutcome.blocked
            ∧ gameOver s2 = Except.error GoPanic.closeOfNilChannel)) :=
  c2_amended { buffer := [], frameChannelClosed := false, frameChannelNil := false }
    (mkFrame 0) rfl rfl

/-- Draining a subscriber's remaining frames: once the hub closes the
channel, the connection loop drains the queued frames then sees the close
and emits the terminal envelope carrying the last frame it remembered. -/
theorem serveFramesWrites_drain (fs : List Frame) (d : Frame) :
    serveFramesWrites (fs.map WsEvent.frame ++ [WsEvent.chanClosed]) (some d)
      = fs.map Envelope.frameMsg
        ++ [Envelope.gameEndMsg (some (fs.getLastD d)), Envelope.closeMsg] := by
  induction fs generalizing d with
  | nil => rfl
  | cons f rest ih =>
      simp only [List.map_cons, List.cons_append, serveFramesWrites,
        List.getLastD_cons]
      exact congrArg (fun t => Envelope.frameMsg f :: t) (ih f)

/-- Count of game_end envelopes is additive over concatenation. -/
theorem countGameEnd_append (xs ys : List Envelope) :
    countGameEnd (xs ++ ys) = countGameEnd xs + countGameEnd ys := by
  induction xs with
  | nil => simp [countGameEnd]
  | cons e rest ih =>
      cases e with
      | frameMsg f => simp [countGameEnd, ih]
      | gameEndMsg f =>
          simp only [List.cons_append, countGameEnd, List.append_eq, ih]
          omega
      | closeMsg => simp [countGameEnd, ih]

/-- Frame envelopes are not game_end envelopes. -/
theorem countGameEnd_frameMsgs (fs : List Frame) :
    countGameEnd (fs.map Envelope.frameMsg) = 0 := by
  induction fs with
  | nil => rfl
  | cons f rest ih => simp [countGameEnd, ih]

/-- C4 counterexample: a subscriber whose peer disconnects before the
game ends leaves the connection loop without writing anything — it
receives zero game_end envelopes, so it is not the case that every
subscriber receives exactly one. -/
theorem c4_counterexample :
    serveFramesWrites [WsEvent.disconnect] none = []
    ∧ countGameEnd (serveFramesWrites [WsEvent.disconnect] none) = 0 := by
  exact ⟨rfl, rfl⟩

/-- C4 as amended: every subscriber that stays connected until the hub
closes its queue, having received the non-empty frame sequence `fs`
(which ends in the last frame ingested before end-of-game, since the hub
closes the queue only once the cursor has passed the whole buffer),
receives exactly one game_end envelope, carrying the last of those
frames, and the websocket close is written immediately after it. -/
theorem c4_amended (fs : List Frame) (h : fs ≠ []) :
    serveFramesWrites (fs.map WsEvent.frame ++ [WsEvent.chanClosed]) none
      = fs.map Envelope.frameMsg
        ++ [Envelope.gameEndMsg (some (fs.getLast h)), Envelope.closeMsg]
    ∧ countGameEnd (serveFramesWrites (fs.map WsEvent.frame ++ [WsEvent.chanClosed]) none)
        = 1 := by
  obtain ⟨f, rest, rfl⟩ : ∃ f rest, fs = f :: rest := by
    cases fs with
    | nil => exact absurd rfl h
    | cons f rest => exact ⟨f, rest, rfl⟩
  have hw : serveFramesWrites ((f :: rest).map WsEvent.frame ++ [WsEvent.chanClosed]) none
      = (f :: rest).map Envelope.frameMsg
        ++ [Envelope.gameEndMsg (some (rest.getLastD f)), Envelope.closeMsg] := by
    simp only [List.map_cons, List.cons_append, serveFramesWrites]
    exact congrArg (fun t => Envelope.frameMsg f :: t) (serveFramesWrites_drain rest f)
  have hl : (f :: rest).getLast (List.cons_ne_nil f rest) = rest.getLastD f := by
    rw [List.getLast_eq_getLastD]
  constructor
  · rw [hw, hl]
  · rw [hw, countGameEnd_append, countGameEnd_frameMsgs]
    rfl

/-- Witness for C4 at a two-frame stream. -/
theorem c4_witness :
    serveFramesWrites ([mkFrame 0, mkFrame 1].map WsEvent.frame ++ [WsEvent.chanClosed]) none
      = [mkFrame 0, mkFrame 1].map Envelope.frameMsg
        ++ [Envelope.gameEndMsg
              (some ([mkFrame 0, mkFrame 1].getLast (List.cons_ne_nil _ _))),
            Envelope.closeMsg]
    ∧ countGameEnd
        (serveFramesWrites ([mkFrame 0, mkFrame 1].map WsEvent.frame
          ++ [WsEvent.chanClosed]) none) = 1 :=
  c4_amended [mkFrame 0, mkFrame 1] (List.cons_ne_nil _ _)

/-- When every remaining move has a snake at its index, the pairing loop
zips the moves with the snake IDs from that index on. -/
theorem pairMovesAux_ok (snakes : List ClientSnake) :
    ∀ (moves : List String) (i : Nat), i + moves.length ≤ snakes.length →
      pairMovesAux snakes moves i
        = Except.ok (List.zipWith (fun s m => ({ id := s.id, move := m } : SnakeMove))
            (snakes.drop i) moves) := by
  intro moves
  induction moves with
  | nil => intro i h; simp [pairMovesAux]
  | cons m rest ih =>
      intro i h
      have hi : i < snakes.length := by
        simp only [List.length_cons] at h
        omega
      have hdrop : snakes.drop i = snakes[i] :: snakes.drop (i + 1) :=
        List.drop_eq_getElem_cons hi
      have hget : snakes[i]? = some snakes[i] := List.getElem?_eq_getElem hi
      have hrest := ih (i + 1) (by simp only [List.length_cons] at h; omega)
      simp only [pairMovesAux, hget, hrest, hdrop, List.zipWith_cons_cons]

/-- When the moves outnumber the snakes from the current index on, the
pairing loop reaches an out-of-range index and panics. -/
theorem pairMovesAux_overflow (snakes : List ClientSnake) :
    ∀ (moves : List String) (i : Nat), moves ≠ [] →
      snakes.length < i + moves.length →
      pairMovesAux snakes moves i = Except.error GoPanic.indexOutOfRange := by
  intro moves
  induction moves with
  | nil => intro i h _; exact absurd rfl h
  | cons m rest ih =>
      intro i _ hlen
      cases hget : snakes[i]? with
      | none => simp [pairMovesAux, hget]
      | some s =>
          have hi : i < snakes.length := by
            by_contra hc
            rw [List.getElem?_eq_none (by omega)] at hget
            exact Option.noConfusion hget
          cases rest with
          | nil =>
              simp only [List.length_cons, List.length_nil] at hlen
              omega
          | cons r rs =>
              have hrec := ih (i + 1) (List.cons_ne_nil r rs)
                (by simp only [List.length_cons] at hlen ⊢; omega)
              simp only [pairMovesAux] at hrec
              simp only [pairMovesAux, hget]
              rw [hrec]

/-- C7 counterexample: with an empty snake list and a single move, the
move-pairing step indexes `Board.Snakes[0]` out of range — a runtime
panic, so the pairing step is not total for a moves list of any length. -/
theorem c7_counterexample :
    pairMoves [] ["up"] = Except.error GoPanic.indexOutOfRange := rfl

/-- C7 as amended: the pairing step pairs the i-th move with the i-th
snake's ID; it is total exactly when the moves list is no longer than the
snake list — a shorter moves list is fine (moves need not cover every
snake), while a longer one panics with an index out of range. Tolerating
moves for unknown snake IDs is the external ruleset's delegated
behavior. -/
theorem c7_amended (snakes : List ClientSnake) (moves : List String)
    (h : moves.length ≤ snakes.length) :
    pairMoves snakes moves
      = Except.ok (List.zipWith (fun s m => ({ id := s.id, move := m } : SnakeMove))
          snakes moves)
    ∧ ∀ moves2 : List String, snakes.length < moves2.length →
        pairMoves snakes moves2 = Except.error GoPanic.indexOutOfRange := by
  constructor
  · have hz := pairMovesAux_ok snakes moves 0 (by omega)
    simpa [pairMoves, List.drop_zero] using hz
  · intro moves2 h2
    have hne : moves2 ≠ [] := by
      cases moves2 with
      | nil => simp only [List.length_nil] at h2; omega
      | cons a b => exact List.cons_ne_nil a b
    exact pairMovesAux_overflow snakes moves2 0 hne (by omega)

/-- Witness for C7 at one snake and one move. -/
theorem c7_witness :
    pairMoves [zeroClientSnake] ["up"]
      = Except.ok (List.zipWith (fun s m => ({ id := s.id, move := m } : SnakeMove))
          [zeroClientSnake] ["up"])
    ∧ ∀ moves2 : List String, ([zeroClientSnake] : List ClientSnake).length < moves2.length →
        pairMoves [zeroClientSnake] moves2 = Except.error GoPanic.indexOutOfRange :=
  c7_amended [zeroClientSnake] ["up"] (by decide)

/-- A successful `convertRulesAPISnake` keeps the snake's identity and
body and zeroes the health of an eliminated snake. -/
theorem convertRulesAPISnake_ok (snake : RulesSnake) (st : ClientSnake) (c : ClientSnake)
    (h : convertRulesAPISnake snake st = Except.ok c) :
    c.id = snake.id ∧ c.body = snake.body
    ∧ c.health = (if snake.eliminatedCause ≠ notEliminated then 0 else snake.health) := by
  cases hb : snake.body with
  | nil =>
      rw [convertRulesAPISnake, hb] at h
      exact Except.noConfusion h
  | cons hd tl =>
      rw [convertRulesAPISnake, hb] at h
      injection h with h2
      subst h2
      exact ⟨rfl, rfl, rfl⟩

/-- A successful `convertRulesAPISnakes` drops no snake. -/
theorem convertRulesAPISnakes_length (snakes : List RulesSnake)
    (reg : String → ClientSnake) (cs : List ClientSnake)
    (h : convertRulesAPISnakes snakes reg = Except.ok cs) :
    cs.length = snakes.length := by
  induction snakes generalizing cs with
  | nil =>
      rw [convertRulesAPISnakes] at h
      injection h with h2
      subst h2
      rfl
  | cons s rest ih =>
      rw [convertRulesAPISnakes] at h
      cases h1 : convertRulesAPISnake s (reg s.id) with
      | error e => rw [h1] at h; exact Except.noConfusion h
      | ok c =>
          rw [h1] at h
          cases h2 : convertRulesAPISnakes rest reg with
          | error e => rw [h2] at h; exact Except.noConfusion h
          | ok cs2 =>
              rw [h2] at h
              injection h with h3
              subst h3
              simp [List.length_cons, ih cs2 h2]

/-- A concrete eliminated snake: killed by a head-to-head collision with
snake "b" on turn 5, with 80 health left at the moment of elimination. -/
def deadSnake : RulesSnake :=
  { id := "a", health := 80, body := [{ x := 1, y := 1 }]
    eliminatedCause := "head-collision", eliminatedBy := "b", eliminatedOnTurn := 5 }

/-- A one-snake board state after that elimination. -/
def oneDeadState : BoardState :=
  { turn := 6, width := 11, height := 11, food := [], hazards := [], snakes := [deadSnake] }

/-- The empty cosmetic registry as a total function. -/
def zeroRegistry : String → SnakeState := fun _ => zeroSnakeState

/-- C6 counterexample: for the snake eliminated on turn 5, the derived
frame's death record carries turn 0, not the elimination turn, and the
frame keeps the snake's health at 80 rather than 0 — the death record is
not populated with the turn, and the frame does not zero the health. -/
theorem c6_counterexample :
    (frameFromState oneDeadState zeroRegistry).snakes.map BoardBattlesnake.death
      = [some { cause := "head-collision", turn := 0, eliminatedBy := "b" }]
    ∧ (frameFromState oneDeadState zeroRegistry).snakes.map BoardBattlesnake.health
      = [80]
    ∧ deadSnake.eliminatedOnTurn = 5
    ∧ ((0 : Int) = 5 → False)
    ∧ ((80 : Int) = 0 → False) := by
  refine ⟨?_, ?_, rfl, by decide, by decide⟩
  · simp [frameFromState, oneDeadState, deadSnake, zeroRegistry, notEliminated]
  · simp [frameFromState, oneDeadState, deadSnake, zeroRegistry]

/-- C6 as amended: an eliminated snake is never removed — both converters
keep every snake in order — and it keeps its last body; in the derived
frame it gets a death record populated with the cause and the eliminating
agent but with the turn field left at 0, and its health copied through
unchanged; in the batch output snapshot its health is forced to 0, but
the client snapshot shape carries no death record at all. -/
theorem c6_amended (state : BoardState) (reg : String → SnakeState)
    (s : RulesSnake) (hs : s ∈ state.snakes)
    (helim : s.eliminatedCause ≠ notEliminated) :
    (frameFromState state reg).snakes.length = state.snakes.length
    ∧ (∃ w, w ∈ (frameFromState state reg).snakes
        ∧ w.id = s.id ∧ w.body = s.body ∧ w.health = s.health
        ∧ w.death = some { cause := s.eliminatedCause, turn := 0,
                           eliminatedBy := s.eliminatedBy })
    ∧ (∀ (st c : ClientSnake), convertRulesAPISnake s st = Except.ok c →
        c.health = 0 ∧ c.body = s.body ∧ c.id = s.id)
    ∧ (∀ (snakes : List RulesSnake) (reg2 : String → ClientSnake) (cs : List ClientSnake),
        convertRulesAPISnakes snakes reg2 = Except.ok cs → cs.length = snakes.length) := by
  refine ⟨by simp [frameFromState], ?_, ?_, ?_⟩
  · refine ⟨_, List.mem_map_of_mem _ hs, rfl, rfl, rfl, ?_⟩
    have hcond : ¬(s.eliminatedCause = notEliminated ∧ s.eliminatedBy = "") :=
      fun hc => helim hc.1
    simp only [if_neg hcond]
  · intro st c h
    obtain ⟨hid, hbody, hhealth⟩ := convertRulesAPISnake_ok s st c h
    refine ⟨?_, hbody, hid⟩
    rw [hhealth, if_pos helim]
  · intro snakes reg2 cs h
    exact convertRulesAPISnakes_length snakes reg2 cs h

/-- Witness for C6 at the concrete eliminated snake. -/
theorem c6_witness :
    (frameFromState oneDeadState zeroRegistry).snakes.length
        = oneDeadState.snakes.length
    ∧ (∃ w, w ∈ (frameFromState oneDeadState zeroRegistry).snakes
        ∧ w.id = deadSnake.id ∧ w.body = deadSnake.body ∧ w.health = deadSnake.health
        ∧ w.death = some { cause := deadSnake.eliminatedCause, turn := 0,
                           eliminatedBy := deadSnake.eliminatedBy })
    ∧ (∀ (st c : ClientSnake), convertRulesAPISnake deadSnake st = Except.ok c →
        c.health = 0 ∧ c.body = deadSnake.body ∧ c.id = deadSnake.id)
    ∧ (∀ (snakes : List RulesSnake) (reg2 : String → ClientSnake) (cs : List ClientSnake),
        convertRulesAPISnakes snakes reg2 = Except.ok cs → cs.length = snakes.length) :=
  c6_amended oneDeadState zeroRegistry deadSnake (List.mem_singleton.mpr rfl) (by decide)

/-- With no concurrent reads during the pass and enough channel room for
every remaining frame, the send pass delivers all of them in order and
leaves the cursor one past the last frame index. -/
theorem sendPassAux_no_drain (cap : Nat) (frameCount : Nat) :
    ∀ (frames : List Frame) (i : Nat) (s : SubState),
      s.taken = 0 → s.pushed.length + frames.length ≤ cap →
      sendPassAux cap (fun _ => 0) frameCount frames i s
        = { cursor := if frames.isEmpty then s.cursor else frameCount + i + frames.length
            pushed := s.pushed ++ frames
            taken := 0
            chanClosed := s.chanClosed } := by
  intro frames
  induction frames with
  | nil =>
      intro i s ht hlen
      obtain ⟨cur, pushed, taken, cc⟩ := s
      simp only at ht
      subst ht
      simp [sendPassAux]
  | cons f rest ih =>
      intro i s ht hlen
      obtain ⟨cur, pushed, taken, cc⟩ := s
      simp only at ht
      subst ht
      simp only [List.length_cons] at hlen
      rw [sendPassAux]
      simp only [Nat.add_zero, Nat.min_zero, SubState.queueLen, Nat.sub_zero]
      rw [if_pos (by omega)]
      rw [ih (i + 1)
        { cursor := frameCount + i + 1, pushed := pushed ++ [f], taken := 0, chanClosed := cc }
        rfl (by simp only [List.length_append, List.length_cons, List.length_nil]; omega)]
      cases rest with
      | nil => simp [List.append_assoc]
      | cons r rs =>
          simp [List.append_assoc, SubState.mk.injEq]
          omega

/-- C3 as amended: a subscriber that registers after end-of-game is
accepted into the registry with cursor 0 (the registration select case
does not consult the game-over flag) and immediately enters the
drain-and-close path; provided the whole buffer fits its fresh
capacity-100 channel, the registration tick pushes every buffered frame,
in order and from index 0, into its queue and then closes the queue. The
same registration before end-of-game delivers the same frames and leaves
the queue open for live delivery. (Beyond the channel capacity the
registration tick alone cannot finish the drain — see the
counterexample following the witness.) -/
theorem c3_register_after_end (buffer : List Frame)
    (hlen : buffer.length ≤ frameChannelCapacity) :
    newSub.cursor = 0
    ∧ dispatchTickSub true buffer frameChannelCapacity (fun _ => 0) false newSub
        = some { cursor := buffer.length, pushed := buffer, taken := 0, chanClosed := true }
    ∧ dispatchTickSub false buffer frameChannelCapacity (fun _ => 0) false newSub
        = some { cursor := buffer.length, pushed := buffer, taken := 0,
                 chanClosed := false } := by
  have hpass : sendPass frameChannelCapacity (fun _ => 0) buffer newSub
      = { cursor := buffer.length, pushed := buffer, taken := 0, chanClosed := false } := by
    rw [sendPass]
    simp only [newSub, List.drop_zero]
    rw [sendPassAux_no_drain frameChannelCapacity 0 buffer 0
      { cursor := 0, pushed := [], taken := 0, chanClosed := false } rfl
      (by simpa using hlen)]
    cases buffer with
    | nil => simp
    | cons b bs => simp
  refine ⟨rfl, ?_, ?_⟩
  · simp [dispatchTickSub, hpass]
  · simp [dispatchTickSub, hpass]

/-- Witness for C3 at a two-frame buffer. -/
theorem c3_witness :
    newSub.cursor = 0
    ∧ dispatchTickSub true [mkFrame 0, mkFrame 1] frameChannelCapacity (fun _ => 0) false newSub
        = some { cursor := ([mkFrame 0, mkFrame 1] : List Frame).length,
                 pushed := [mkFrame 0, mkFrame 1], taken := 0, chanClosed := true }
    ∧ dispatchTickSub false [mkFrame 0, mkFrame 1] frameChannelCapacity (fun _ => 0) false newSub
        = some { cursor := ([mkFrame 0, mkFrame 1] : List Frame).length,
                 pushed := [mkFrame 0, mkFrame 1], taken := 0, chanClosed := false } :=
  c3_register_after_end [mkFrame 0, mkFrame 1] (by decide)

/-- Dispatch after the game is over, seen from one subscriber: each
further pass of the per-subscriber body requires the serve_loop select
to fire again, and with the producer channel nilled out its only
remaining cases are a new registration and the stop signal — there is
no timer, and the subscriber draining its own queue does not wake the
loop. `drainTicks` runs one per-subscriber pass per wake-up that occurs,
each with that pass's reader schedule; an empty wake-up list means the
loop stays blocked in its select. -/
def drainTicks (buffer : List Frame) (wakeups : List (Nat → Nat)) (sub : SubState) :
    Option SubState :=
  wakeups.foldl
    (fun acc drain => acc.bind (dispatchTickSub true buffer frameChannelCapacity drain false))
    (some sub)

set_option maxRecDepth 100000 in
/-- C3 counterexample: with 101 buffered frames — one more than the
subscriber queue's capacity — the registration tick of a subscriber
registering after end-of-game pushes only frames 0–99, leaves the cursor
at 100 and does not close the queue; and with no further wake-up of the
dispatch loop it stays exactly there, so frame 100 and the queue close
are never delivered: such a subscriber does not receive every buffered
frame and then the queue close. -/
theorem c3_counterexample :
    dispatchTickSub true (rangeFrames 101) frameChannelCapacity (fun _ => 0) false newSub
      = some { cursor := 100, pushed := rangeFrames 100, taken := 0, chanClosed := false }
    ∧ drainTicks (rangeFrames 101) []
        { cursor := 100, pushed := rangeFrames 100, taken := 0, chanClosed := false }
      = some { cursor := 100, pushed := rangeFrames 100, taken := 0, chanClosed := false }
    ∧ mkFrame 100 ∉ rangeFrames 100
    ∧ (rangeFrames 101)[100]? = some (mkFrame 100) := by
  refine ⟨by decide, rfl, by decide, by decide⟩

/-- A reader schedule for the concrete run: the subscriber's goroutine
removes one frame from its queue just before send attempt 101 and none
before any other attempt — a plain interleaving of the concurrent
reader with the dispatch loop's pass. -/
def c1Drain : Nat → Nat := fun i => if i = 101 then 1 else 0

set_option maxRecDepth 100000 in
/-- C1: the per-subscriber send loop does not stop at a full queue — the
non-blocking send's default branch continues with the next frame. With
102 buffered frames and a fresh subscriber, the pass pushes frames 0–99
(filling the capacity-100 queue), fails to push frame 100 (queue full),
and then — after the reader frees one slot — pushes frame 101 and
advances the cursor to 102, so the game-over check closes the queue with
frame 100 never delivered: a gap, and a dropped frame. -/
theorem c1_dispatch_drops_frame :
    dispatchTickSub true (rangeFrames 102) frameChannelCapacity c1Drain false newSub
      = some { cursor := 102
               pushed := rangeFrames 100 ++ [mkFrame 101]
               taken := 1
               chanClosed := true }
    ∧ mkFrame 100 ∉ rangeFrames 100 ++ [mkFrame 101]
    ∧ (rangeFrames 102)[100]? = some (mkFrame 100) := by
  refine ⟨by decide, by decide, by decide⟩

/-- The `youIdx` loop keeps the index of the last snake whose ID matches:
if the ID occurs, the fold lands on an index holding a snake with that
ID; if it does not occur, the accumulator passes through. -/
theorem findYouIdx_foldl (youID : String) :
    ∀ (snakes : List ClientSnake) (n acc : Nat),
      (youID ∈ snakes.map ClientSnake.id →
        ∃ k, k < snakes.length
          ∧ (snakes.enumFrom n).foldl
              (fun a p => if p.2.id = youID then p.1 else a) acc = n + k
          ∧ ∃ s, snakes[k]? = some s ∧ s.id = youID)
      ∧ (youID ∉ snakes.map ClientSnake.id →
        (snakes.enumFrom n).foldl
            (fun a p => if p.2.id = youID then p.1 else a) acc = acc) := by
  intro snakes
  induction snakes with
  | nil =>
      intro n acc
      exact ⟨fun h => absurd h (by simp), fun _ => rfl⟩
  | cons s rest ih =>
      intro n acc
      constructor
      · intro h
        rw [List.enumFrom_cons, List.foldl_cons]
        by_cases hmem : youID ∈ rest.map ClientSnake.id
        · obtain ⟨k, hk, heq, s2, hs2, hid⟩ :=
            (ih (n + 1) (if s.id = youID then n else acc)).1 hmem
          refine ⟨k + 1, by simp only [List.length_cons]; omega, ?_, s2, ?_, hid⟩
          · rw [heq]; omega
          · rw [List.getElem?_cons_succ]; exact hs2
        · have hpass := (ih (n + 1) (if s.id = youID then n else acc)).2 hmem
          by_cases hsid : s.id = youID
          · refine ⟨0, by simp, ?_, s, ?_, hsid⟩
            · rw [hpass, if_pos hsid]; omega
            · rw [List.getElem?_cons_zero]
          · exfalso
            rw [List.map_cons, List.mem_cons] at h
            cases h with
            | inl h2 => exact hsid h2.symm
            | inr h2 => exact hmem h2
      · intro h
        rw [List.map_cons, List.mem_cons] at h
        push_neg at h
        rw [List.enumFrom_cons, List.foldl_cons]
        have hpass := (ih (n + 1) (if s.id = youID then n else acc)).2 h.2
        rw [hpass, if_neg (fun hc => h.1 hc.symm)]

/-- If the viewpoint ID occurs in the snake list, `findYouIdx` lands on a
snake carrying that ID. -/
theorem findYouIdx_spec (snakes : List ClientSnake) (youID : String)
    (h : youID ∈ snakes.map ClientSnake.id) :
    ∃ s, snakes[findYouIdx snakes youID]? = some s ∧ s.id = youID := by
  obtain ⟨k, hk, heq, s, hs, hid⟩ := (findYouIdx_foldl youID snakes 0 0).1 h
  rw [findYouIdx, List.enum]
  rw [heq, Nat.zero_add]
  exact ⟨s, hs, hid⟩

/-- The board state handed to the ruleset carries the request's snake IDs
in order. -/
theorem initialBoardState_ids (req : SnakeRequest) :
    (initialBoardState req).snakes.map RulesSnake.id
      = req.board.snakes.map ClientSnake.id := by
  simp only [initialBoardState, List.map_map]
  rfl

/-- C5: for every line the batch loop processes to completion, the
emitted snapshot's turn field is the input snapshot's turn plus exactly
one, and its You field is recomputed for the configured viewpoint snake
(the output You carries the viewpoint snake's ID). The delegated
collaborators — the ruleset step and the map's board hook — are opaque
capabilities that, per the specification, move and mark snakes but
neither renumber the turn (the engine itself increments it, once) nor
add, remove or reorder snakes. -/
theorem c5_turn_increment_and_you
    (cnbs : BoardState → List SnakeMove → Except String BoardState)
    (ub : String → BoardState → Except String BoardState)
    (igo : BoardState → Except String Bool)
    (hcnbs : ∀ s m s2, cnbs s m = Except.ok s2 →
      s2.turn = s.turn ∧ s2.snakes.map RulesSnake.id = s.snakes.map RulesSnake.id)
    (hub : ∀ mid s s2, ub mid s = Except.ok s2 →
      s2.turn = s.turn ∧ s2.snakes.map RulesSnake.id = s.snakes.map RulesSnake.id)
    (input : MoveState) (out : SnakeRequest)
    (hyou : input.request.you.id ∈ input.request.board.snakes.map ClientSnake.id)
    (hok : moveLine cnbs ub igo input = Except.ok out) :
    out.turn = input.request.turn + 1 ∧ out.you.id = input.request.you.id := by
  simp only [moveLine] at hok
  cases hp : pairMoves input.request.board.snakes input.moves with
  | error e => simp [hp] at hok
  | ok moves =>
  simp only [hp] at hok
  cases h1 : cnbs (initialBoardState input.request) moves with
  | error e => simp [h1] at hok
  | ok s1 =>
  simp only [h1] at hok
  cases h2 : ub input.request.game.mapId s1 with
  | error e => simp [h2] at hok
  | ok s2 =>
  simp only [h2] at hok
  cases h3 : igo s2 with
  | error e => simp [h3] at hok
  | ok b =>
  simp only [h3] at hok
  cases h4 : convertRulesAPISnakes s2.snakes (buildSnakeMap input.request.board.snakes) with
  | error e => simp [h4] at hok
  | ok newSnakes =>
  simp only [h4] at hok
  cases h5 : s2.snakes[findYouIdx input.request.board.snakes input.request.you.id]? with
  | none => simp [h5] at hok
  | some youSnake =>
  simp only [h5] at hok
  cases h6 : convertRulesAPISnake youSnake
      (buildSnakeMap input.request.board.snakes input.request.you.id) with
  | error e => simp [h6] at hok
  | ok you =>
  simp only [h6] at hok
  injection hok with h7
  subst h7
  obtain ⟨ht1, hi1⟩ := hcnbs _ _ _ h1
  obtain ⟨ht2, hi2⟩ := hub _ _ _ h2
  obtain ⟨hyid, hybody, hyhealth⟩ := convertRulesAPISnake_ok _ _ _ h6
  constructor
  · show s2.turn + 1 = input.request.turn + 1
    rw [ht2, ht1]
    rfl
  · show you.id = input.request.you.id
    obtain ⟨s0, hs0, hs0id⟩ :=
      findYouIdx_spec input.request.board.snakes input.request.you.id hyou
    have hmap2 : s2.snakes.map RulesSnake.id
        = input.request.board.snakes.map ClientSnake.id := by
      rw [hi2, hi1, initialBoardState_ids]
    have hg1 : (s2.snakes.map RulesSnake.id)[findYouIdx input.request.board.snakes
        input.request.you.id]? = some youSnake.id := by
      rw [List.getElem?_map, h5]
      rfl
    have hg2 : (input.request.board.snakes.map ClientSnake.id)[findYouIdx
        input.request.board.snakes input.request.you.id]?
        = some input.request.you.id := by
      rw [List.getElem?_map, hs0]
      show some s0.id = some input.request.you.id
      rw [hs0id]
    rw [hmap2, hg2] at hg1
    injection hg1 with h8
    rw [hyid, ← h8]

/-- A concrete viewpoint snake for the batch-interface witness. -/
def c5Snake : ClientSnake :=
  { id := "a", name := "A", health := 90, body := [{ x := 0, y := 0 }], latency := ""
    head := { x := 0, y := 0 }, length := 1, shout := ""
    customizations := { color := "", head := "", tail := "" } }

/-- A concrete decoded input line: a one-snake turn-3 request with one
move. -/
def c5Input : MoveState :=
  { request := { game := { mapId := "standard", rulesetName := "standard" }
                 turn := 3
                 board := { height := 11, width := 11, food := [], hazards := []
                            snakes := [c5Snake] }
                 you := c5Snake }
    moves := ["up"] }

/-- A trivially contract-abiding ruleset step for the witness: it returns
the board unchanged, hence preserves turn and snake IDs. -/
def idCnbs : BoardState → List SnakeMove → Except String BoardState :=
  fun s _ => Except.ok s

/-- A trivially contract-abiding map hook for the witness. -/
def idUb : String → BoardState → Except String BoardState :=
  fun _ s => Except.ok s

/-- A never-failing game-over check for the witness. -/
def idIgo : BoardState → Except String Bool :=
  fun _ => Except.ok false

/-- The snapshot the batch loop emits for `c5Input` under the witness
collaborators. -/
def c5Out : SnakeRequest :=
  { game := { mapId := "standard", rulesetName := "standard" }
    turn := 4
    board := { height := 11, width := 11, food := [], hazards := [], snakes := [c5Snake] }
    you := c5Snake }

/-- Witness for C5 at the concrete line. -/
theorem c5_witness :
    c5Out.turn = c5Input.request.turn + 1 ∧ c5Out.you.id = c5Input.request.you.id :=
  c5_turn_increment_and_you idCnbs idUb idIgo
    (by intro s m s2 h; injection h with h2; subst h2; exact ⟨rfl, rfl⟩)
    (by intro mid s s2 h; injection h with h2; subst h2; exact ⟨rfl, rfl⟩)
    c5Input c5Out (by decide) rfl
